import Mathlib

/-!
Shallow embedding of the coordinate-transform and area-selection subsystem of
the dadokps/PDFViewer repository, together with theorems checking the
specification's claims against it.

Sources embedded (first, authoritative variant of each file):
- src/PDFViewerComponent/component/Marking/AreaSelectionTool.tsx
  (getCanvasCoordinates, extractTextFromArea, captureScreenshot, handleMouseUp)
- src/PDFViewerComponent/index.ts
  (drawSelectionBoxes, handleAreaSelected, handleAreaRemove, handleClearAllAreas,
   the conditional CanvasOverlay mount)
- src/PDFViewerComponent/component/Marking/SelectedAreasList.tsx
  (handleAreaRemove, handleClearAll)

JavaScript numbers are embedded as rationals; the single irrational
operation, Math.sqrt in the text matcher's font-size estimate, is embedded as
Real.sqrt over the reals. The PDF.js page/viewport interface is external to
the repository and is modelled from the spec (section 6).
-/

set_option maxHeartbeats 1000000

/-- A mouse position in canvas-pixel space (AreaSelectionTool.tsx `startPos`,
`currentPos`). -/
structure Pt where
  x : ℚ
  y : ℚ
deriving DecidableEq

/-- A rectangle in canvas-pixel space (top-left origin), as computed in
`handleMouseUp` from the two drag endpoints. -/
@[ext]
structure CanvasRect where
  x : ℚ
  y : ℚ
  width : ℚ
  height : ℚ
deriving DecidableEq

/-- A rectangle in PDF point units as stored in `SelectedArea.position`
(fields pdfX, pdfY, pdfWidth, pdfHeight). -/
@[ext]
structure PdfRect where
  x : ℚ
  y : ℚ
  width : ℚ
  height : ℚ
deriving DecidableEq

/-- Viewport dimensions returned by the rendering library's
`page.getViewport` call. -/
structure Viewport where
  width : ℚ
  height : ℚ
deriving DecidableEq

/-- A PDF page's intrinsic dimensions at scale 1 and rotation 0. -/
structure Page where
  width : ℚ
  height : ℚ
deriving DecidableEq

/-- Modelled from the spec: the external rendering library's
`PageHandle.getViewport(scale, rotation)` (spec section 6, a pure function of
its inputs).  Per the glossary and section 4.1 the viewport describes the
page's pixel dimensions under the given scale and rotation, rotation swapping
the reported dimensions at quarter turns.  Rotations are multiples of 90. -/
def getViewport (p : Page) (scale : ℚ) (rotation : ℤ) : Viewport :=
  if rotation % 180 = 0 then
    ⟨p.width * scale, p.height * scale⟩
  else
    ⟨p.height * scale, p.width * scale⟩

/-- Modelled from the spec: `getViewport` called without a rotation argument
(as in `getViewport(scale: 1.0)` and the redraw's `getViewport(scale: scale)`),
which falls back to the page's intrinsic rotation, taken to be 0. -/
def getViewportDefault (p : Page) (scale : ℚ) : Viewport :=
  getViewport p scale 0

/-- Canvas-pixel to PDF-point conversion performed at creation time
(AreaSelectionTool.tsx lines 262-270 in `handleMouseUp`): each coordinate is
divided by the display viewport dimension, queried with the current scale and
rotation, and multiplied by the scale-1 viewport dimension. -/
def canvasToPdfRect (page : Page) (scale : ℚ) (rotation : ℤ) (r : CanvasRect) : PdfRect :=
  let pdfViewport := getViewportDefault page 1
  let canvasViewport := getViewport page scale rotation
  { x := r.x / canvasViewport.width * pdfViewport.width
  , y := r.y / canvasViewport.height * pdfViewport.height
  , width := r.width / canvasViewport.width * pdfViewport.width
  , height := r.height / canvasViewport.height * pdfViewport.height }

/-- PDF-point to canvas-pixel conversion performed on overlay redraw
(index.ts lines 236-242 in `drawSelectionBoxes`): the stored PDF coordinates
are divided by the scale-1 viewport and multiplied by the current viewport,
both queried without a rotation argument. -/
def pdfToCanvasRect (page : Page) (scale : ℚ) (pos : PdfRect) : CanvasRect :=
  let pdfViewport := getViewportDefault page 1
  let currentViewport := getViewportDefault page scale
  { x := pos.x / pdfViewport.width * currentViewport.width
  , y := pos.y / pdfViewport.height * currentViewport.height
  , width := pos.width / pdfViewport.width * currentViewport.width
  , height := pos.height / pdfViewport.height * currentViewport.height }

/-- The rectangle handed to the text matcher, in bottom-left-origin PDF point
space (AreaSelectionTool.tsx lines 273-279): the y coordinate of the converted
rectangle is flipped as viewportHeight - y - height; x, width, height are
passed through unchanged. -/
structure TextArea where
  x : ℚ
  y : ℚ
  width : ℚ
  height : ℚ
  page : ℕ
deriving DecidableEq

/-- Construction of the text-extraction rectangle from the converted PDF-point
rectangle (AreaSelectionTool.tsx lines 273-279). -/
def textExtractionArea (page : Page) (pr : PdfRect) (pageNum : ℕ) : TextArea :=
  { x := pr.x
  , y := (getViewportDefault page 1).height - pr.y - pr.height
  , width := pr.width
  , height := pr.height
  , page := pageNum }

/-- At an unrotated configuration (and nondegenerate page and scale) the
overlay redraw conversion exactly inverts the creation-time conversion. -/
theorem roundTrip_of_rotZero (page : Page) (scale : ℚ) (r : CanvasRect)
    (hw : page.width ≠ 0) (hh : page.height ≠ 0) (hs : scale ≠ 0) :
    pdfToCanvasRect page scale (canvasToPdfRect page scale 0 r) = r := by
  ext <;>
    · simp only [pdfToCanvasRect, canvasToPdfRect, getViewportDefault, getViewport,
        Int.zero_emod, if_pos rfl, mul_one]
      field_simp
      ring

/-- C1: the claim states that converting a canvas rectangle to PDF points via
the creation-time conversion and back via the overlay redraw conversion under
the same (scale, rotation) reproduces the rectangle.  On a 100 by 200 point
page at scale 1 and rotation 90 the rectangle (10, 20, 30, 40) comes back as
(5, 40, 15, 80): the creation-time conversion divides by the rotation-swapped
viewport while the redraw multiplies by the viewport queried without a
rotation argument. -/
theorem c1_roundTrip_fails_under_rotation :
    pdfToCanvasRect ⟨100, 200⟩ 1 (canvasToPdfRect ⟨100, 200⟩ 1 90 ⟨10, 20, 30, 40⟩)
        = ⟨5, 40, 15, 80⟩ ∧
      (⟨5, 40, 15, 80⟩ : CanvasRect) ≠ ⟨10, 20, 30, 40⟩ := by
  constructor
  · ext <;> norm_num [pdfToCanvasRect, canvasToPdfRect, getViewportDefault, getViewport]
  · norm_num [CanvasRect.mk.injEq]

/-- C2 counterexample: the claim states the stored pdfY is the
single-flip value viewportHeight - y - height and that the redraw applies the
inverse flip.  On a 100 by 200 point page at scale 1 and rotation 0, a canvas
rectangle with y = 10, height = 20 is stored with pdfY = 10 (the unflipped
ratio conversion) and redrawn at y = 10, whereas the claimed flip would give
200 - 10 - 20 = 170. -/
theorem c2_storedY_not_flipped :
    (canvasToPdfRect ⟨100, 200⟩ 1 0 ⟨5, 10, 20, 20⟩).y = 10 ∧
      (pdfToCanvasRect ⟨100, 200⟩ 1 ⟨5, 10, 20, 20⟩).y = 10 ∧
      ((10 : ℚ) ≠ 200 - 10 - 20) := by
  refine ⟨?_, ?_, by norm_num⟩ <;>
    norm_num [canvasToPdfRect, pdfToCanvasRect, getViewportDefault, getViewport]

/-- C2 (amended): the stored position rectangle keeps the top-left-origin y of
the ratio conversion: no Y flip is applied at the canvas-to-PDF storage
boundary and none at the PDF-to-canvas redraw boundary (at an unrotated
configuration the redraw exactly inverts storage), while exactly one flip
y' = viewportHeight - y - height is applied when deriving the text-extraction
rectangle from the stored PDF-point rectangle. -/
theorem c2_singleFlip_on_textPath_only (page : Page) (scale : ℚ) (r : CanvasRect) (n : ℕ)
    (hw : page.width ≠ 0) (hh : page.height ≠ 0) (hs : scale ≠ 0) :
    (textExtractionArea page (canvasToPdfRect page scale 0 r) n).y
        = (getViewportDefault page 1).height - (canvasToPdfRect page scale 0 r).y
            - (canvasToPdfRect page scale 0 r).height ∧
      pdfToCanvasRect page scale (canvasToPdfRect page scale 0 r) = r :=
  ⟨rfl, roundTrip_of_rotZero page scale r hw hh hs⟩

/-- C2 witness: the amended statement at a 100 by 200 point page, scale 2,
rectangle (5, 10, 20, 20). -/
theorem c2_singleFlip_witness :
    (textExtractionArea ⟨100, 200⟩ (canvasToPdfRect ⟨100, 200⟩ 2 0 ⟨5, 10, 20, 20⟩) 1).y
        = (getViewportDefault ⟨100, 200⟩ 1).height
            - (canvasToPdfRect ⟨100, 200⟩ 2 0 ⟨5, 10, 20, 20⟩).y
            - (canvasToPdfRect ⟨100, 200⟩ 2 0 ⟨5, 10, 20, 20⟩).height ∧
      pdfToCanvasRect ⟨100, 200⟩ 2 (canvasToPdfRect ⟨100, 200⟩ 2 0 ⟨5, 10, 20, 20⟩)
        = ⟨5, 10, 20, 20⟩ :=
  c2_singleFlip_on_textPath_only ⟨100, 200⟩ 2 ⟨5, 10, 20, 20⟩ 1
    (by norm_num) (by norm_num) (by norm_num)

/-- A text run from the rendering library's `getTextContent` result: a string
and the 6-element affine transform, of which the source reads transform[0],
transform[1] (for the font-size estimate) and transform[4], transform[5]
(the x and y anchor), AreaSelectionTool.tsx lines 167-184. -/
structure TextItem where
  str : String
  t0 : ℚ
  t1 : ℚ
  t2 : ℚ
  t3 : ℚ
  t4 : ℚ
  t5 : ℚ

/-- The font-size estimate Math.sqrt(transform[0]^2 + transform[1]^2)
(AreaSelectionTool.tsx line 176). -/
noncomputable def fontSize (it : TextItem) : ℝ :=
  Real.sqrt ((it.t0 : ℝ) ^ 2 + (it.t1 : ℝ) ^ 2)

/-- textLeft = textX (AreaSelectionTool.tsx line 181). -/
noncomputable def textLeft (it : TextItem) : ℝ := (it.t4 : ℝ)

/-- textRight = textX + textWidth with textWidth = str.length * fontSize * 0.5
(AreaSelectionTool.tsx lines 177, 182). -/
noncomputable def textRight (it : TextItem) : ℝ :=
  (it.t4 : ℝ) + (it.str.length : ℝ) * fontSize it * 0.5

/-- textBottom = textY (AreaSelectionTool.tsx line 183). -/
noncomputable def textBottom (it : TextItem) : ℝ := (it.t5 : ℝ)

/-- textTop = textY + textHeight with textHeight = fontSize
(AreaSelectionTool.tsx lines 178, 184). -/
noncomputable def textTop (it : TextItem) : ℝ := (it.t5 : ℝ) + fontSize it

/-- horizontalOverlap = textRight > areaLeft and textLeft < areaRight
(AreaSelectionTool.tsx line 194). -/
def horizontalOverlap (a : TextArea) (it : TextItem) : Prop :=
  textRight it > (a.x : ℝ) ∧ textLeft it < ((a.x + a.width : ℚ) : ℝ)

/-- verticalOverlap = textTop > areaBottom and textBottom < areaTop
(AreaSelectionTool.tsx line 195). -/
def verticalOverlap (a : TextArea) (it : TextItem) : Prop :=
  textTop it > (a.y : ℝ) ∧ textBottom it < ((a.y + a.height : ℚ) : ℝ)

/-- The run-inclusion condition of the source matcher
(AreaSelectionTool.tsx line 197). -/
def runMatches (a : TextArea) (it : TextItem) : Prop :=
  horizontalOverlap a it ∧ verticalOverlap a it

open Classical in
/-- The accumulation loop of the matcher: extractedText += item.str + ' ' for
every run whose estimated box overlaps the area, in run order
(AreaSelectionTool.tsx lines 167-200). -/
noncomputable def extractedTextRaw (items : List TextItem) (a : TextArea) : String :=
  items.foldl (fun acc it => if runMatches a it then acc ++ it.str ++ " " else acc) ""

/-- extractTextFromArea (AreaSelectionTool.tsx lines 153-207): returns the
empty string when no document is loaded; a failure of the page or text-content
lookup is caught and becomes the 'Error extracting text' sentinel; otherwise
the trimmed accumulated text, replaced by the 'No text detected in selected
area' sentinel when empty. -/
noncomputable def extractTextFromArea (pdfDoc : Bool) (pageLookup : Except Unit Unit)
    (textLookup : Except Unit (List TextItem)) (area : TextArea) : String :=
  if pdfDoc = false then ""
  else
    match pageLookup, textLookup with
    | Except.ok _, Except.ok items =>
        let t := (extractedTextRaw items area).trim
        if t = "" then "No text detected in selected area" else t
    | _, _ => "Error extracting text"

/-- Stated from the claim (C6): the run's estimated bounding box is
[x, x + stringLength * fontSize * 0.5] x [y, y + fontSize] with fontSize the
scale component sqrt(t0^2 + t1^2) of the transform, and the run is included
exactly when that box overlaps the target rectangle: run.right > rect.left and
run.left < rect.right and run.top > rect.bottom and run.bottom < rect.top. -/
noncomputable def specOverlaps (a : TextArea) (it : TextItem) : Prop :=
  let fs := Real.sqrt ((it.t0 : ℝ) ^ 2 + (it.t1 : ℝ) ^ 2)
  (it.t4 : ℝ) + (it.str.length : ℝ) * fs * 0.5 > (a.x : ℝ)
    ∧ (it.t4 : ℝ) < (a.x : ℝ) + (a.width : ℝ)
    ∧ (it.t5 : ℝ) + fs > (a.y : ℝ)
    ∧ (it.t5 : ℝ) < (a.y : ℝ) + (a.height : ℝ)

open Classical in
/-- Stated from the claim (C6): the runs whose estimated box overlaps the
target rectangle, in run order. -/
noncomputable def specMatchedRuns (a : TextArea) (items : List TextItem) : List TextItem :=
  items.filter fun it => decide (specOverlaps a it)

/-- The source's overlap test agrees with the claim's flattened form. -/
theorem runMatches_iff_specOverlaps (a : TextArea) (it : TextItem) :
    runMatches a it ↔ specOverlaps a it := by
  simp only [runMatches, horizontalOverlap, verticalOverlap, textLeft, textRight,
    textBottom, textTop, fontSize, specOverlaps, Rat.cast_add, gt_iff_lt, and_assoc]

theorem string_foldl_append (l : List String) (s : String) :
    l.foldl (fun r t => r ++ t) s = s ++ l.foldl (fun r t => r ++ t) "" := by
  induction l generalizing s with
  | nil => simp [String.append_empty]
  | cons x xs ih =>
    simp only [List.foldl_cons]
    rw [ih (s ++ x), ih ("" ++ x), String.empty_append, String.append_assoc]

theorem string_join_cons (s : String) (l : List String) :
    String.join (s :: l) = s ++ String.join l := by
  simp only [String.join, List.foldl_cons, String.empty_append]
  exact string_foldl_append l s

open Classical in
theorem extractedTextRaw_acc (a : TextArea) (items : List TextItem) (acc : String) :
    items.foldl (fun acc it => if runMatches a it then acc ++ it.str ++ " " else acc) acc
      = acc ++ String.join ((specMatchedRuns a items).map fun it => it.str ++ " ") := by
  induction items generalizing acc with
  | nil => simp [specMatchedRuns, String.join, String.append_empty]
  | cons x xs ih =>
    simp only [List.foldl_cons, specMatchedRuns, List.filter_cons]
    by_cases h : specOverlaps a x
    · rw [if_pos ((runMatches_iff_specOverlaps a x).mpr h)]
      simp only [decide_eq_true h, if_pos, ite_true, List.map_cons, string_join_cons]
      rw [ih (acc ++ x.str ++ " ")]
      simp [specMatchedRuns, String.append_assoc]
    · rw [if_neg (fun hm => h ((runMatches_iff_specOverlaps a x).mp hm))]
      simp only [decide_eq_false h, ite_false]
      exact ih acc

/-- C6: the matcher accumulates, space-joined and in run order, exactly the
runs whose estimated bounding box [x, x + len * fontSize * 0.5] x [y, y + fontSize]
overlaps the target rectangle (overlap, not containment), fontSize being the
scale component sqrt(t0^2 + t1^2) of the transform. -/
theorem c6_matcher_includes_iff_overlap (items : List TextItem) (a : TextArea) :
    extractedTextRaw items a
        = String.join ((specMatchedRuns a items).map fun it => it.str ++ " ")
      ∧ ∀ it : TextItem, runMatches a it ↔ specOverlaps a it := by
  refine ⟨?_, fun it => runMatches_iff_specOverlaps a it⟩
  rw [extractedTextRaw, extractedTextRaw_acc a items "", String.empty_append]

theorem extractedTextRaw_of_no_match (a : TextArea) (items : List TextItem)
    (h : ∀ it ∈ items, ¬ runMatches a it) :
    extractedTextRaw items a = "" := by
  rw [extractedTextRaw]
  induction items with
  | nil => rfl
  | cons x xs ih =>
    rw [List.foldl_cons, if_neg (h x (List.mem_cons_self x xs))]
    exact ih fun it hit => h it (List.mem_cons_of_mem x hit)

theorem string_trim_empty : "".trim = "" := by
  simp only [String.trim, Substring.trim, Substring.trimLeft, Substring.trimRight,
    String.toSubstring]
  simp [Substring.takeWhileAux, Substring.takeRightWhileAux, String.endPos,
    Substring.toString, String.extract, String.utf8ByteSize]

/-- C5: with a loaded document and successful lookups, if no run overlaps the
target rectangle the matcher returns the 'No text detected in selected area'
sentinel, which in particular is not the empty string and not an absent
value. -/
theorem c5_sentinel_on_no_overlap (items : List TextItem) (a : TextArea)
    (h : ∀ it ∈ items, ¬ runMatches a it) :
    extractTextFromArea true (Except.ok ()) (Except.ok items) a
        = "No text detected in selected area"
      ∧ extractTextFromArea true (Except.ok ()) (Except.ok items) a ≠ "" := by
  have hres : extractTextFromArea true (Except.ok ()) (Except.ok items) a
      = "No text detected in selected area" := by
    rw [extractTextFromArea]
    simp only [Bool.true_eq_false, if_false, ite_false]
    rw [extractedTextRaw_of_no_match a items h, string_trim_empty]
    simp
  exact ⟨hres, by rw [hres]; decide⟩

/-- C5 witness: the empty run list overlaps nothing, and the matcher returns
the sentinel on it. -/
theorem c5_sentinel_witness :
    extractTextFromArea true (Except.ok ()) (Except.ok []) ⟨0, 0, 10, 10, 1⟩
        = "No text detected in selected area"
      ∧ extractTextFromArea true (Except.ok ()) (Except.ok []) ⟨0, 0, 10, 10, 1⟩ ≠ "" :=
  c5_sentinel_on_no_overlap [] ⟨0, 0, 10, 10, 1⟩ (by simp)

/-- The stored position of a marked area (AreaSelectionTool.tsx lines 64-76):
the PDF-point rectangle plus the page number, and the original canvas-pixel
rectangle kept for reference. -/
structure AreaPosition where
  pdfX : ℚ
  pdfY : ℚ
  pdfWidth : ℚ
  pdfHeight : ℚ
  page : ℕ
  canvasX : ℚ
  canvasY : ℚ
  canvasWidth : ℚ
  canvasHeight : ℚ
deriving DecidableEq

/-- A Marked Area record (SelectedArea, AreaSelectionTool.tsx lines 60-78). -/
structure SelectedArea where
  id : String
  text : String
  screenshot : String
  position : AreaPosition
  timestamp : ℤ
deriving DecidableEq

/-- The effectful context of one drag-release: whether a document is loaded,
the outcomes of the awaited page and text-content lookups (the page lookup
inside extractTextFromArea is separate from the one in handleMouseUp), the
canvas bitmap abstracted as a region-to-image function, and the generated id
and timestamp. -/
structure GestureEnv where
  pdfDoc : Bool
  pageLookup : Except Unit Page
  textPageLookup : Except Unit Unit
  textContent : Except Unit (List TextItem)
  screenshotOf : CanvasRect → String
  newId : String
  now : ℤ

/-- captureScreenshot (AreaSelectionTool.tsx lines 212-232): returns the empty
string when the canvas is absent, otherwise the encoded image of exactly the
requested region of the canvas bitmap, read synchronously. -/
def captureScreenshot (canvasPresent : Bool) (screenshotOf : CanvasRect → String)
    (area : CanvasRect) : String :=
  if canvasPresent then screenshotOf area else ""

/-- handleMouseUp (AreaSelectionTool.tsx lines 236-310): guard on the live
drag state and canvas, compute the drag's canvas bounding box, gate on both
dimensions exceeding 10 canvas pixels, capture the screenshot, bail out when
no document is loaded, convert to PDF points using the awaited page (a failed
lookup is caught by the surrounding try and produces no area), extract text
from the flipped rectangle and assemble the SelectedArea. -/
noncomputable def handleMouseUp (env : GestureEnv) (isSelecting : Bool)
    (startPos currentPos : Option Pt) (canvasPresent : Bool)
    (currentPage : ℕ) (scale : ℚ) (rotation : ℤ) : Option SelectedArea :=
  match isSelecting, startPos, currentPos, canvasPresent with
  | true, some sp, some cp, true =>
    let canvasX := min sp.x cp.x
    let canvasY := min sp.y cp.y
    let canvasWidth := |cp.x - sp.x|
    let canvasHeight := |cp.y - sp.y|
    if 10 < canvasWidth ∧ 10 < canvasHeight then
      let screenshot := captureScreenshot true env.screenshotOf
        ⟨canvasX, canvasY, canvasWidth, canvasHeight⟩
      if env.pdfDoc = false then none
      else
        match env.pageLookup with
        | Except.error _ => none
        | Except.ok page =>
          let pr := canvasToPdfRect page scale rotation
            ⟨canvasX, canvasY, canvasWidth, canvasHeight⟩
          let text := extractTextFromArea env.pdfDoc env.textPageLookup env.textContent
            (textExtractionArea page pr currentPage)
          some
            { id := env.newId
            , text := if text = "" then "No text detected in selected area" else text
            , screenshot := screenshot
            , position :=
                { pdfX := pr.x, pdfY := pr.y, pdfWidth := pr.width, pdfHeight := pr.height
                , page := currentPage
                , canvasX := canvasX, canvasY := canvasY
                , canvasWidth := canvasWidth, canvasHeight := canvasHeight }
            , timestamp := env.now }
    else none
  | _, _, _, _ => none

/-- C3: with the drag state live, the canvas mounted, a loaded document and a
successful page lookup, handleMouseUp emits a Marked Area exactly when the
drag's canvas-pixel bounding box has width > 10 and height > 10, measured
before any coordinate conversion. -/
theorem c3_minSize_gate (env : GestureEnv) (page : Page) (sp cp : Pt)
    (n : ℕ) (s : ℚ) (r : ℤ)
    (hdoc : env.pdfDoc = true) (hpage : env.pageLookup = Except.ok page) :
    (handleMouseUp env true (some sp) (some cp) true n s r).isSome
      ↔ (10 < |cp.x - sp.x| ∧ 10 < |cp.y - sp.y|) := by
  by_cases hgate : (10 : ℚ) < |cp.x - sp.x| ∧ (10 : ℚ) < |cp.y - sp.y|
  · simp only [handleMouseUp, if_pos hgate, hdoc, hpage]
    simp [hgate]
  · simp only [handleMouseUp, if_neg hgate]
    simp [hgate]

/-- C3 witness: an 11 by 11 drag emits an area and a 49 by 3 drag does not,
in an environment with a loaded 100 by 200 point document. -/
theorem c3_minSize_gate_witness :
    (handleMouseUp
        ⟨true, Except.ok ⟨100, 200⟩, Except.ok (), Except.ok [], fun _ => "shot", "area-1", 0⟩
        true (some ⟨0, 0⟩) (some ⟨11, 11⟩) true 1 1 0).isSome
      ∧ ¬ (handleMouseUp
        ⟨true, Except.ok ⟨100, 200⟩, Except.ok (), Except.ok [], fun _ => "shot", "area-1", 0⟩
        true (some ⟨0, 0⟩) (some ⟨49, 3⟩) true 1 1 0).isSome := by
  constructor
  · exact (c3_minSize_gate _ ⟨100, 200⟩ ⟨0, 0⟩ ⟨11, 11⟩ 1 1 0 rfl rfl).mpr
      (by constructor <;> · show (10 : ℚ) < _; norm_num)
  · intro h
    have := (c3_minSize_gate _ ⟨100, 200⟩ ⟨0, 0⟩ ⟨49, 3⟩ 1 1 0 rfl rfl).mp h
    have h2 := this.2
    rw [show ((⟨49, 3⟩ : Pt).y - (⟨0, 0⟩ : Pt).y : ℚ) = 3 by norm_num] at h2
    norm_num at h2

/-- A failed page or text-content lookup inside extractTextFromArea is caught
locally and becomes the 'Error extracting text' sentinel. -/
theorem extractTextFromArea_error (pl : Except Unit Unit) (tl : Except Unit (List TextItem))
    (a : TextArea) (h : pl = Except.error () ∨ tl = Except.error ()) :
    extractTextFromArea true pl tl a = "Error extracting text" := by
  rcases h with h | h <;> subst h
  · cases tl <;> rfl
  · cases pl <;> rfl

/-- An environment whose handleMouseUp-level page lookup fails while
everything else succeeds. -/
def envPageFail : GestureEnv :=
  { pdfDoc := true
  , pageLookup := Except.error ()
  , textPageLookup := Except.ok ()
  , textContent := Except.ok []
  , screenshotOf := fun _ => "shot"
  , newId := "area-1"
  , now := 0 }

/-- An environment whose text-content lookup fails while the page lookups
succeed. -/
def envTextFail : GestureEnv :=
  { pdfDoc := true
  , pageLookup := Except.ok ⟨100, 200⟩
  , textPageLookup := Except.ok ()
  , textContent := Except.error ()
  , screenshotOf := fun _ => "shot"
  , newId := "area-1"
  , now := 0 }

/-- C4 counterexample: the claim states a gate-passing drag with a loaded
document still yields a Marked Area when the asynchronous viewport lookup
fails.  In an environment whose handleMouseUp page lookup fails, a 20 by 20
drag produces no area at all: the failure is caught by the surrounding try,
and the already-captured screenshot is discarded. -/
theorem c4_viewport_failure_drops_area :
    handleMouseUp envPageFail true (some ⟨0, 0⟩) (some ⟨20, 20⟩) true 1 1 0 = none := by
  have hgate : (10 : ℚ) < |(⟨20, 20⟩ : Pt).x - (⟨0, 0⟩ : Pt).x|
      ∧ (10 : ℚ) < |(⟨20, 20⟩ : Pt).y - (⟨0, 0⟩ : Pt).y| := by
    constructor <;> · show (10 : ℚ) < _; norm_num
  simp only [handleMouseUp, if_pos hgate]
  rfl

/-- C4 (amended): if the text-content extraction fails, the area is still
created with the already-captured screenshot and the 'Error extracting text'
sentinel; but if the handleMouseUp viewport/page lookup fails, the failure is
caught (nothing propagates uncaught) and no area is emitted, discarding the
screenshot. -/
theorem c4_text_failure_still_creates (env : GestureEnv) (page : Page) (sp cp : Pt)
    (n : ℕ) (s : ℚ) (r : ℤ)
    (hdoc : env.pdfDoc = true) (hpage : env.pageLookup = Except.ok page)
    (htext : env.textPageLookup = Except.error () ∨ env.textContent = Except.error ())
    (hw : 10 < |cp.x - sp.x|) (hh : 10 < |cp.y - sp.y|) :
    ∃ area, handleMouseUp env true (some sp) (some cp) true n s r = some area
      ∧ area.text = "Error extracting text"
      ∧ area.screenshot
          = env.screenshotOf ⟨min sp.x cp.x, min sp.y cp.y, |cp.x - sp.x|, |cp.y - sp.y|⟩ := by
  have herr : ∀ a, extractTextFromArea true env.textPageLookup env.textContent a
      = "Error extracting text" := fun a => extractTextFromArea_error _ _ a htext
  simp only [handleMouseUp, if_pos (And.intro hw hh), hdoc, hpage]
  refine ⟨_, rfl, ?_, rfl⟩
  show (if extractTextFromArea true env.textPageLookup env.textContent _ = "" then _ else _)
      = "Error extracting text"
  rw [herr]
  decide

/-- C4 witness: the amended statement in an environment whose text-content
lookup fails, for a 20 by 20 drag. -/
theorem c4_text_failure_witness :
    ∃ area, handleMouseUp envTextFail true (some ⟨0, 0⟩) (some ⟨20, 20⟩) true 1 1 0 = some area
      ∧ area.text = "Error extracting text" ∧ area.screenshot = "shot" := by
  obtain ⟨area, h1, h2, h3⟩ :=
    c4_text_failure_still_creates envTextFail ⟨100, 200⟩ ⟨0, 0⟩ ⟨20, 20⟩ 1 1 0 rfl rfl
      (Or.inr rfl)
      (by show (10 : ℚ) < _; norm_num) (by show (10 : ℚ) < _; norm_num)
  exact ⟨area, h1, h2, h3.trans rfl⟩

/-- One rectangle painted by the overlay redraw, with its highlight styling
flag (heavier dashed stroke and stronger fill when highlighted,
index.ts lines 244-254). -/
structure DrawnBox where
  rect : CanvasRect
  highlighted : Bool
deriving DecidableEq

/-- drawSelectionBoxes (index.ts lines 218-259): a failed page lookup is
caught and draws nothing; otherwise the overlay is cleared and exactly the
areas whose position.page equals the current page are converted from stored
PDF points to current canvas pixels and painted, styled highlighted when the
area's id equals the highlighted area's id. -/
def drawSelectionBoxes (pageLookup : Except Unit Page) (pageNumber : ℕ) (scale : ℚ)
    (selectedAreas : List SelectedArea) (highlightedArea : Option SelectedArea) :
    List DrawnBox :=
  match pageLookup with
  | Except.error _ => []
  | Except.ok page =>
    let currentPageAreas := selectedAreas.filter fun a => a.position.page == pageNumber
    currentPageAreas.map fun a =>
      { rect := pdfToCanvasRect page scale
          ⟨a.position.pdfX, a.position.pdfY, a.position.pdfWidth, a.position.pdfHeight⟩
      , highlighted := match highlightedArea with
          | some h => h.id == a.id
          | none => false }

/-- C7: a box is painted by the overlay redraw exactly when it renders an
area of the list whose position.page equals the current page; an area whose
position.page differs is never drawn, even when areas of several pages
coexist in the list. -/
theorem c7_page_filter (page : Page) (pageNumber : ℕ) (scale : ℚ)
    (selectedAreas : List SelectedArea) (highlightedArea : Option SelectedArea)
    (b : DrawnBox) :
    b ∈ drawSelectionBoxes (Except.ok page) pageNumber scale selectedAreas highlightedArea
      ↔ ∃ a, a ∈ selectedAreas ∧ a.position.page = pageNumber
          ∧ b = { rect := pdfToCanvasRect page scale
                    ⟨a.position.pdfX, a.position.pdfY, a.position.pdfWidth, a.position.pdfHeight⟩
                , highlighted := match highlightedArea with
                    | some h => h.id == a.id
                    | none => false } := by
  simp only [drawSelectionBoxes, List.mem_map, List.mem_filter, beq_iff_eq]
  constructor
  · rintro ⟨a, ⟨ha, hp⟩, rfl⟩
    exact ⟨a, ha, hp, rfl⟩
  · rintro ⟨a, ha, hp, rfl⟩
    exact ⟨a, ⟨ha, hp⟩, rfl⟩

/-- The transient gesture state of AreaSelectionTool (isSelecting, startPos,
currentPos) together with the selection-mode flag owned by the viewer
(index.ts isSelectionMode). -/
structure SelState where
  isSelectionMode : Bool
  isSelecting : Bool
  startPos : Option Pt
  currentPos : Option Pt

/-- A pointer event on the drawing surface. -/
inductive PointerEvent where
  | down (p : Pt)
  | move (p : Pt)
  | up

/-- One pointer event dispatched against the viewer.  index.ts lines 684-693
mount the event-receiving overlay only while isSelectionMode is true, so when
selection mode is off no handler receives the event; otherwise handleMouseDown
(AreaSelectionTool.tsx lines 135-142), handleMouseMove (lines 145-150) or
handleMouseUp (lines 236-310, also bound to mouse-leave) runs, the last
returning the emitted area, if any, and clearing the drag state. -/
noncomputable def dispatchPointer (env : GestureEnv) (canvasPresent : Bool)
    (currentPage : ℕ) (scale : ℚ) (rotation : ℤ)
    (s : SelState) (e : PointerEvent) : SelState × Option SelectedArea :=
  if s.isSelectionMode = false then (s, none)
  else
    match e with
    | .down p =>
        if s.isSelectionMode ∧ canvasPresent then
          ({ s with isSelecting := true, startPos := some p, currentPos := some p }, none)
        else (s, none)
    | .move p =>
        if s.isSelecting ∧ s.startPos.isSome then
          ({ s with currentPos := some p }, none)
        else (s, none)
    | .up =>
        ({ s with isSelecting := false, startPos := none, currentPos := none },
         handleMouseUp env s.isSelecting s.startPos s.currentPos canvasPresent
           currentPage scale rotation)

/-- Toggling selection mode off (onSelectionModeChange false): only the mode
flag changes; the transient drag fields are not cleared by the source. -/
def selectionModeOff (s : SelState) : SelState :=
  { s with isSelectionMode := false }

/-- The Marked Areas emitted while a sequence of pointer events runs. -/
noncomputable def runPointer (env : GestureEnv) (canvasPresent : Bool) (currentPage : ℕ)
    (scale : ℚ) (rotation : ℤ) (s : SelState) (evs : List PointerEvent) :
    List SelectedArea :=
  match evs with
  | [] => []
  | e :: rest =>
      let st := dispatchPointer env canvasPresent currentPage scale rotation s e
      st.2.toList ++ runPointer env canvasPresent currentPage scale rotation st.1 rest

theorem dispatchPointer_of_mode_off (env : GestureEnv) (canvasPresent : Bool)
    (currentPage : ℕ) (scale : ℚ) (rotation : ℤ) (s : SelState)
    (h : s.isSelectionMode = false) (e : PointerEvent) :
    dispatchPointer env canvasPresent currentPage scale rotation s e = (s, none) := by
  simp [dispatchPointer, h]

theorem runPointer_of_mode_off (env : GestureEnv) (canvasPresent : Bool)
    (currentPage : ℕ) (scale : ℚ) (rotation : ℤ) (s : SelState)
    (h : s.isSelectionMode = false) (evs : List PointerEvent) :
    runPointer env canvasPresent currentPage scale rotation s evs = [] := by
  induction evs generalizing s with
  | nil => rfl
  | cons e rest ih =>
    rw [runPointer]
    rw [dispatchPointer_of_mode_off env canvasPresent currentPage scale rotation s h e]
    simpa using ih s h

/-- C8: once selection mode is toggled off - in particular mid-drag, after
pointer-down and before pointer-up - the overlay owning the pointer handlers
is unmounted, so the subsequent pointer-up (and any further pointer events)
emits no Marked Area, regardless of the drag rectangle's size. -/
theorem c8_no_area_after_mode_off (env : GestureEnv) (canvasPresent : Bool)
    (currentPage : ℕ) (scale : ℚ) (rotation : ℤ) (s : SelState)
    (evs : List PointerEvent) :
    runPointer env canvasPresent currentPage scale rotation (selectionModeOff s) evs = [] :=
  runPointer_of_mode_off env canvasPresent currentPage scale rotation
    (selectionModeOff s) rfl evs

/-- The viewer's marking state (index.ts lines 138-140): the area list and the
highlighted-area reference. -/
structure ViewerState where
  selectedAreas : List SelectedArea
  highlightedArea : Option SelectedArea
deriving DecidableEq

/-- handleAreaSelected (index.ts lines 477-479): append the new area to the
list. -/
def handleAreaSelected (s : ViewerState) (area : SelectedArea) : ViewerState :=
  { s with selectedAreas := s.selectedAreas ++ [area] }

/-- handleAreaHighlight (index.ts lines 481-483): set or clear the
highlighted-area reference. -/
def handleAreaHighlight (s : ViewerState) (area : Option SelectedArea) : ViewerState :=
  { s with highlightedArea := area }

/-- handleAreaRemove (index.ts lines 485-487): keep exactly the areas whose id
differs from the removed id. -/
def handleAreaRemove (s : ViewerState) (areaId : String) : ViewerState :=
  { s with selectedAreas := s.selectedAreas.filter fun a => a.id != areaId }

/-- handleClearAllAreas (index.ts lines 489-491): empty the list. -/
def handleClearAllAreas (s : ViewerState) : ViewerState :=
  { s with selectedAreas := [] }

/-- The remove action of the list UI (SelectedAreasList.tsx lines 42-50):
forward the removal to the viewer, then clear the highlight when the removed
id was the highlighted area's id. -/
def listHandleAreaRemove (s : ViewerState) (areaId : String) : ViewerState :=
  let s1 := handleAreaRemove s areaId
  if (match s.highlightedArea with
      | some h => h.id == areaId
      | none => false) then
    handleAreaHighlight s1 none
  else s1

/-- The clear-all action of the list UI (SelectedAreasList.tsx lines 58-61):
clear the list, then clear the highlight. -/
def listHandleClearAll (s : ViewerState) : ViewerState :=
  handleAreaHighlight (handleClearAllAreas s) none

/-- C9: removing the highlighted area's id clears the highlight; removing a
different id leaves the highlight untouched, and the highlighted area, when
present in the list, is still present afterwards; clearing all areas empties
the list and clears any highlight, for every prior state. -/
theorem c9_highlight_consistency (s : ViewerState) (areaId : String) (h : SelectedArea) :
    (s.highlightedArea = some h → h.id = areaId →
        (listHandleAreaRemove s areaId).highlightedArea = none)
      ∧ (s.highlightedArea = some h → h.id ≠ areaId →
        (listHandleAreaRemove s areaId).highlightedArea = some h
          ∧ (h ∈ s.selectedAreas → h ∈ (listHandleAreaRemove s areaId).selectedAreas))
      ∧ (listHandleClearAll s).highlightedArea = none
      ∧ (listHandleClearAll s).selectedAreas = [] := by
  refine ⟨?_, ?_, rfl, rfl⟩
  · intro hh heq
    simp [listHandleAreaRemove, hh, heq, handleAreaHighlight]
  · intro hh hne
    constructor
    · simp [listHandleAreaRemove, hh, hne, handleAreaRemove, handleAreaHighlight]
    · intro hmem
      simp [listHandleAreaRemove, hh, hne, handleAreaRemove, handleAreaHighlight,
        List.mem_filter, hmem, bne_iff_ne]

/-- A concrete marked area with id a1. -/
def areaOne : SelectedArea :=
  { id := "a1", text := "t1", screenshot := "s1"
  , position := ⟨1, 2, 3, 4, 1, 0, 0, 0, 0⟩, timestamp := 0 }

/-- A concrete marked area with id a2. -/
def areaTwo : SelectedArea :=
  { id := "a2", text := "t2", screenshot := "s2"
  , position := ⟨5, 6, 7, 8, 2, 0, 0, 0, 0⟩, timestamp := 1 }

/-- C9 witness: with areas a1, a2 and a1 highlighted, removing a1 clears the
highlight, removing a2 keeps it, and clear-all clears it. -/
theorem c9_highlight_witness :
    (listHandleAreaRemove ⟨[areaOne, areaTwo], some areaOne⟩ "a1").highlightedArea = none
      ∧ (listHandleAreaRemove ⟨[areaOne, areaTwo], some areaOne⟩ "a2").highlightedArea
          = some areaOne
      ∧ (listHandleClearAll ⟨[areaOne, areaTwo], some areaOne⟩).highlightedArea = none :=
  ⟨(c9_highlight_consistency ⟨[areaOne, areaTwo], some areaOne⟩ "a1" areaOne).1 rfl rfl
  , ((c9_highlight_consistency ⟨[areaOne, areaTwo], some areaOne⟩ "a2" areaOne).2.1 rfl
      (by decide)).1
  , (c9_highlight_consistency ⟨[areaOne, areaTwo], some areaOne⟩ "a2" areaOne).2.2.1⟩

/-- C10: appending a created area preserves every existing element in place
and puts the new area at the end; removal by id deletes exactly the elements
with that id, keeping all other elements in their relative order (the result
is a sublist of the original). -/
theorem c10_append_and_filter (s : ViewerState) (area : SelectedArea) (areaId : String) :
    (∀ k, k < s.selectedAreas.length →
        (handleAreaSelected s area).selectedAreas.get? k = s.selectedAreas.get? k)
      ∧ (handleAreaSelected s area).selectedAreas.get? s.selectedAreas.length = some area
      ∧ (handleAreaSelected s area).selectedAreas.length = s.selectedAreas.length + 1
      ∧ List.Sublist (handleAreaRemove s areaId).selectedAreas s.selectedAreas
      ∧ (∀ x : SelectedArea, x ∈ (handleAreaRemove s areaId).selectedAreas
          ↔ x ∈ s.selectedAreas ∧ x.id ≠ areaId) := by
  refine ⟨?_, ?_, ?_, ?_, ?_⟩
  · intro k hk
    exact List.get?_append hk
  · exact List.get?_concat_length s.selectedAreas area
  · simp [handleAreaSelected]
  · exact List.filter_sublist s.selectedAreas
  · intro x
    simp [handleAreaRemove, List.mem_filter, bne_iff_ne]

/-- C10 witness: appending a2 to the list containing a1 keeps a1 at index 0
and puts a2 at index 1, and removing id a1 from that list keeps exactly a2. -/
theorem c10_append_filter_witness :
    (handleAreaSelected ⟨[areaOne], none⟩ areaTwo).selectedAreas.get? 0 = some areaOne
      ∧ (handleAreaSelected ⟨[areaOne], none⟩ areaTwo).selectedAreas.get? 1 = some areaTwo
      ∧ (areaTwo ∈ (handleAreaRemove ⟨[areaOne, areaTwo], none⟩ "a1").selectedAreas
          ∧ areaOne ∉ (handleAreaRemove ⟨[areaOne, areaTwo], none⟩ "a1").selectedAreas) := by
  have h1 := c10_append_and_filter ⟨[areaOne], none⟩ areaTwo "a1"
  have h2 := c10_append_and_filter ⟨[areaOne, areaTwo], none⟩ areaOne "a1"
  refine ⟨(h1.1 0 (by decide)).trans rfl, h1.2.1, ?_, ?_⟩
  · exact (h2.2.2.2.2 areaTwo).mpr ⟨by simp, by decide⟩
  · intro hmem
    exact absurd ((h2.2.2.2.2 areaOne).mp hmem).2 (by simp [areaOne])
